import Mathlib

/-!
Shallow embedding of `src/server.js`: a message-campaign server with a
per-task session pool (unhealthy-cookie threshold `max(1, floor(0.75 * N))`),
first-success-wins message dispatch over the healthy sessions, a wrapping
message sequencer, a timer-driven task loop, and a process-wide task
registry with monitor counters.

The opaque remote calls (`wiegine.login`, `api.getThreadInfo`,
`api.sendMessage`) and `Math.random` are modelled by explicit outcome
oracles passed to the embedded functions; `setInterval`/`setTimeout`
scheduling is modelled by explicit events on a `ServerState`.
-/

namespace PinkyServer

/-! ## JavaScript string helpers (`split` / `trim` / `filter(Boolean)`) -/

/-- Whitespace characters removed by JavaScript `String.prototype.trim`
(restricted to the ASCII whitespace that can occur in this server's inputs). -/
def isJsSpace (c : Char) : Bool :=
  c = ' ' || c = '\t' || c = '\n' || c = '\r' || c = '\x0b' || c = '\x0c'

/-- Trim leading and trailing whitespace from a character list. -/
def trimChars (l : List Char) : List Char :=
  ((l.dropWhile isJsSpace).reverse.dropWhile isJsSpace).reverse

/-- JavaScript `s.trim()`. -/
def jsTrim (s : String) : String := ⟨trimChars s.data⟩

/-- JavaScript `s.split(c)` for a single-character separator: splitting the
empty string yields `[""]`, and separators at the ends yield empty pieces. -/
def splitCharsOn (c : Char) : List Char → List (List Char)
  | [] => [[]]
  | a :: rest =>
      let groups := splitCharsOn c rest
      if a = c then [] :: groups
      else
        match groups with
        | [] => [[a]]
        | g :: gs => (a :: g) :: gs

/-- JavaScript `s.split(c)` producing strings. -/
def jsSplit (c : Char) (s : String) : List String :=
  (splitCharsOn c s.data).map fun l => ⟨l⟩

/-- `s.split(c).map(l => l.trim()).filter(Boolean)` — the list-input
normalization used by `startTask` (server.js lines 195-202). -/
def splitTrimFilter (c : Char) (s : String) : List String :=
  ((jsSplit c s).map jsTrim).filter (fun x => x != "")

/-- The `^\d+$` test on the (already trimmed) thread id (server.js line 204). -/
def validThreadID (t : String) : Bool :=
  !t.data.isEmpty && t.data.all Char.isDigit

/-- `parseInt(x) || 10` (server.js line 199): `none` models `NaN`, and the
parsed value `0` is falsy, so both fall back to 10. -/
def jsParseIntOr10 : Option Nat → Nat
  | none => 10
  | some 0 => 10
  | some (n + 1) => n + 1

/-! ## RawSessionManager (server.js lines 44-114)

The remote outcome of processing one credential: `wiegine.login` fails,
login succeeds but `getThreadInfo` fails, or both succeed. -/

inductive CredOutcome
  | loginFail
  | noAccess
  | ok
  deriving DecidableEq

/-- State of `RawSessionManager`.  A session entry is `(index, healthy)`;
the api handle is identified by its credential index.  `breachSignals`
counts how many times `checkStopCondition` took its breach branch, i.e.
logged the "Too many unhealthy cookies" line and scheduled
`setTimeout(() => stopTask(...), 0)`. -/
structure RawSessionManager where
  taskId : Nat
  totalSessions : Nat
  sessions : List (Nat × Bool)
  sessionQueue : List Nat
  unhealthyCount : Nat
  unhealthyThreshold : Nat
  breachSignals : Nat
  deriving DecidableEq

/-- The constructor (server.js lines 45-55).  `Math.floor(totalSessions * 0.75)`
is exact in double precision for any realistic `N`, hence `N * 3 / 4`. -/
def mkRawSessionManager (taskId totalSessions : Nat) : RawSessionManager :=
  { taskId := taskId
    totalSessions := totalSessions
    sessions := []
    sessionQueue := []
    unhealthyCount := 0
    unhealthyThreshold := max 1 (totalSessions * 3 / 4)
    breachSignals := 0 }

/-- `checkStopCondition` (server.js lines 66-73): when
`unhealthyCount >= unhealthyThreshold` it logs the breach and schedules a
`stopTask` — both recorded here as one `breachSignals` increment — and
returns `true`; otherwise it returns `false` unchanged.  Note there is no
guard against signalling repeatedly. -/
def checkStopCondition (m : RawSessionManager) : RawSessionManager × Bool :=
  if m.unhealthyThreshold ≤ m.unhealthyCount then
    ({ m with breachSignals := m.breachSignals + 1 }, true)
  else (m, false)

/-- `createRawSession` (server.js lines 75-105) for one credential, with the
remote outcome supplied by the oracle: either failure path increments
`unhealthyCount` and runs `checkStopCondition`; success stores the entry
with `healthy := true` and appends the index to `sessionQueue`. -/
def createRawSession (m : RawSessionManager) (outcome : CredOutcome) (index : Nat) :
    RawSessionManager :=
  match outcome with
  | .loginFail => (checkStopCondition { m with unhealthyCount := m.unhealthyCount + 1 }).1
  | .noAccess => (checkStopCondition { m with unhealthyCount := m.unhealthyCount + 1 }).1
  | .ok =>
      { m with
        sessions := m.sessions ++ [(index, true)]
        sessionQueue := m.sessionQueue ++ [index] }

/-- The sequential bootstrap loop of `createRawSessions`
(server.js lines 152-161), starting at credential index `i`. -/
def createRawSessionsGo (m : RawSessionManager) (i : Nat) :
    List CredOutcome → RawSessionManager
  | [] => m
  | o :: rest => createRawSessionsGo (createRawSession m o i) (i + 1) rest

/-- `createRawSessions` over the whole credential list (one outcome per
credential, in order). -/
def createRawSessions (m : RawSessionManager) (outs : List CredOutcome) :
    RawSessionManager :=
  createRawSessionsGo m 0 outs

/-- `getHealthySessions` (server.js lines 107-113): the handles of the
healthy entries, in insertion (= credential) order. -/
def getHealthySessions (m : RawSessionManager) : List Nat :=
  (m.sessions.filter (fun p => p.2)).map (fun p => p.1)

/-- Number of failing credentials in an outcome list (each one increments
`unhealthyCount` exactly once). -/
def credFailures : List CredOutcome → Nat
  | [] => 0
  | .loginFail :: rest => credFailures rest + 1
  | .noAccess :: rest => credFailures rest + 1
  | .ok :: rest => credFailures rest

/-! ## RawMessageSender (server.js lines 118-148) -/

/-- The fallback loop of `sendMessage` (server.js lines 140-145): try each
handle in order; first success returns `true` immediately.  The second
component is the list of handles actually tried, in order. -/
def sendMessageGo (outcome : Nat → Bool) : List Nat → Bool × List Nat
  | [] => (false, [])
  | a :: rest =>
      if outcome a then (true, [a])
      else ((sendMessageGo outcome rest).1, a :: (sendMessageGo outcome rest).2)

/-- `sendMessage` (server.js lines 136-147): snapshot the healthy sessions;
an empty pool returns `false` with no attempts; otherwise fall back through
the handles in pool order.  `outcome h` is the oracle for the opaque
`api.sendMessage` result on handle `h`. -/
def sendMessage (outcome : Nat → Bool) (m : RawSessionManager) : Bool × List Nat :=
  sendMessageGo outcome (getHealthySessions m)

/-! ## Task data model (server.js lines 13-40) -/

/-- `TaskConfig` (server.js lines 23-29). -/
structure TaskConfig where
  delay : Nat
  running : Bool
  cookies : List String
  deriving DecidableEq

/-- `TaskMessageData` (server.js lines 31-40): the sequencer state. -/
structure TaskMessageData where
  threadID : String
  messages : List String
  hatersName : List String
  lastName : List String
  currentIndex : Nat
  loopCount : Nat
  deriving DecidableEq

/-- One task object (server.js lines 215-223).  `intervalId` is the timer
handle created by `setInterval`, `none` before bootstrap completes. -/
structure Task where
  taskId : Nat
  config : TaskConfig
  messageData : TaskMessageData
  rawManager : RawSessionManager
  intervalId : Option Nat
  deriving DecidableEq

/-- The global `monitorData` object (server.js lines 16-19). -/
structure MonitorData where
  activeTasks : Nat
  totalSent : Nat
  deriving DecidableEq

/-- Process-wide state: the `tasks` map (as an association list in insertion
order), `monitorData`, and the live interval handles (`timers`) with a
fresh-handle counter (`nextTimer`). -/
structure ServerState where
  tasks : List (Nat × Task)
  monitorData : MonitorData
  timers : List Nat
  nextTimer : Nat
  deriving DecidableEq

/-- State at process start. -/
def initialState : ServerState :=
  { tasks := [], monitorData := { activeTasks := 0, totalSent := 0 },
    timers := [], nextTimer := 0 }

/-- The `monitor_data` reply payload (server.js lines 287-292). -/
structure MonitorReply where
  uptime : Nat
  activeTasks : Nat
  totalSent : Nat
  deriving DecidableEq

/-- Building the `monitor_data` reply from the current state. -/
def monitorReply (uptime : Nat) (s : ServerState) : MonitorReply :=
  { uptime := uptime
    activeTasks := s.monitorData.activeTasks
    totalSent := s.monitorData.totalSent }

/-! ## The `tasks` Map operations (`get` / `set` / `delete` / `size`) -/

/-- `tasks.get(k)`. -/
def mapGet (k : Nat) : List (Nat × Task) → Option Task
  | [] => none
  | p :: rest => if p.1 = k then some p.2 else mapGet k rest

/-- `tasks.has(k)`. -/
def mapContains (k : Nat) : List (Nat × Task) → Bool
  | [] => false
  | p :: rest => p.1 == k || mapContains k rest

/-- Replace the value stored under an existing key, keeping its position. -/
def mapReplace (k : Nat) (v : Task) : List (Nat × Task) → List (Nat × Task)
  | [] => []
  | p :: rest => if p.1 = k then (k, v) :: mapReplace k v rest else p :: mapReplace k v rest

/-- `tasks.set(k, v)`: overwrite in place when the key exists, else append. -/
def mapSet (k : Nat) (v : Task) (m : List (Nat × Task)) : List (Nat × Task) :=
  if mapContains k m then mapReplace k v m else m ++ [(k, v)]

/-- `tasks.delete(k)`. -/
def mapDelete (k : Nat) (m : List (Nat × Task)) : List (Nat × Task) :=
  m.filter (fun p => p.1 != k)

/-! ## runTaskLoop (server.js lines 167-190) -/

/-- Nondeterministic inputs of one tick: the two `Math.random` draws used by
`randomFrom`, and the opaque `api.sendMessage` outcome per handle. -/
structure TickOracle where
  haterPick : Nat
  lastPick : Nat
  sendOutcome : Nat → Bool

/-- `randomFrom` (server.js lines 163-165): `arr[Math.floor(Math.random() *
arr.length)]`.  The draw is modelled by reducing `r` modulo the length (any
index in `[0, length)` is reachable); for an empty array the JS result is
`undefined`, which a template literal renders as the string `"undefined"`. -/
def randomFrom (arr : List String) (r : Nat) : String :=
  arr.getD (r % arr.length) "undefined"

/-- The wrap step at the top of `runTaskLoop` (server.js lines 173-177):
when `currentIndex >= messages.length`, reset the index to 0 and increment
the loop counter before composing. -/
def wrapIfNeeded (md : TaskMessageData) : TaskMessageData :=
  if md.messages.length ≤ md.currentIndex then
    { md with currentIndex := 0, loopCount := md.loopCount + 1 }
  else md

/-- Message composition (server.js lines 179-182): the template literal
`hater + " " + messages[currentIndex] + " " + last`, where an out-of-range
index renders as `"undefined"`. -/
def composeMsg (md : TaskMessageData) (o : TickOracle) : String :=
  randomFrom md.hatersName o.haterPick ++ " "
    ++ md.messages.getD md.currentIndex "undefined" ++ " "
    ++ randomFrom md.lastName o.lastPick

/-- `runTaskLoop` (server.js lines 167-190): a single tick.  Returns the new
state and, unless the tick early-returned (absent task or cleared running
flag), the composed message together with the delivery outcome.  On
delivery the index advances and `monitorData.totalSent` increments. -/
def runTaskLoop (o : TickOracle) (taskId : Nat) (s : ServerState) :
    ServerState × Option (String × Bool) :=
  match mapGet taskId s.tasks with
  | none => (s, none)
  | some task =>
      if task.config.running then
        let md := wrapIfNeeded task.messageData
        let finalMsg := composeMsg md o
        let ok := (sendMessage o.sendOutcome task.rawManager).1
        let md2 := if ok then { md with currentIndex := md.currentIndex + 1 } else md
        let tasks2 := mapSet taskId { task with messageData := md2 } s.tasks
        let mon :=
          if ok then { s.monitorData with totalSent := s.monitorData.totalSent + 1 }
          else s.monitorData
        ({ s with tasks := tasks2, monitorData := mon }, some (finalMsg, ok))
      else (s, none)

/-! ## startTask / stopTask and the bootstrap continuation
(server.js lines 194-256) -/

/-- Payload of an inbound `start` control message (server.js lines 194-202).
`delay` models `parseInt(data.delay)` with `none` for `NaN`. -/
structure StartData where
  cookieContent : String
  messageContent : String
  threadID : String
  delay : Option Nat
  hatersName : String
  lastHereName : String

/-- `startTask` (server.js lines 194-239) up to and including the registry
insertion: normalize the input lists, validate the thread id (the only
validation performed), and on success register the new task and refresh
`activeTasks`.  The asynchronous `createRawSessions(...).then(...)`
continuation is modelled separately by `bootstrapComplete`. -/
def startTask (freshId : Nat) (d : StartData) (s : ServerState) : ServerState :=
  let cookies := splitTrimFilter '\n' d.cookieContent
  let messages := splitTrimFilter '\n' d.messageContent
  let threadID := jsTrim d.threadID
  let delay := jsParseIntOr10 d.delay
  let haters := splitTrimFilter ',' d.hatersName
  let lastNames := splitTrimFilter ',' d.lastHereName
  if validThreadID threadID then
    let task : Task :=
      { taskId := freshId
        config := { delay := delay, running := true, cookies := cookies }
        messageData :=
          { threadID := threadID, messages := messages, hatersName := haters,
            lastName := lastNames, currentIndex := 0, loopCount := 0 }
        rawManager := mkRawSessionManager freshId cookies.length
        intervalId := none }
    let tasks2 := mapSet freshId task s.tasks
    { s with tasks := tasks2,
             monitorData := { s.monitorData with activeTasks := tasks2.length } }
  else s

/-- `stopTask` (server.js lines 242-256): a missing task id returns
immediately; otherwise clear the interval (if one exists), remove the task,
and refresh `activeTasks` from the new map size. -/
def stopTask (taskId : Nat) (s : ServerState) : ServerState :=
  match mapGet taskId s.tasks with
  | none => s
  | some task =>
      { s with
        tasks := mapDelete taskId s.tasks
        timers :=
          match task.intervalId with
          | some t => s.timers.erase t
          | none => s.timers
        monitorData :=
          { s.monitorData with activeTasks := (mapDelete taskId s.tasks).length } }

/-- The `createRawSessions(task).then(ok => ...)` continuation
(server.js lines 230-239): with no healthy session it stops the task;
otherwise it creates the recurring interval and stores the handle on the
task object it captured — which updates the registry only if that task is
still registered.  Note it does not re-check whether the task was stopped
meanwhile: the interval is created regardless. -/
def bootstrapComplete (taskId : Nat) (ok : Bool) (s : ServerState) : ServerState :=
  if ok then
    let timerId := s.nextTimer
    let s1 := { s with timers := s.timers ++ [timerId], nextTimer := s.nextTimer + 1 }
    match mapGet taskId s1.tasks with
    | some task =>
        { s1 with tasks := mapSet taskId { task with intervalId := some timerId } s1.tasks }
    | none => s1
  else stopTask taskId s

/-! ## The event-level transition system over `ServerState` -/

/-- One processed event: an inbound `start`, an inbound `stop_by_id` (or the
scheduled stop from a threshold breach), the asynchronous completion of a
task's bootstrap, or one timer tick.  A `monitor` request does not change
the state. -/
inductive Step : ServerState → ServerState → Prop
  | start (s : ServerState) (freshId : Nat) (d : StartData) :
      Step s (startTask freshId d s)
  | stop (s : ServerState) (taskId : Nat) : Step s (stopTask taskId s)
  | bootstrapDone (s : ServerState) (taskId : Nat) (ok : Bool) :
      Step s (bootstrapComplete taskId ok s)
  | tick (s : ServerState) (o : TickOracle) (taskId : Nat) :
      Step s (runTaskLoop o taskId s).1

/-- States reachable from process start by processing events. -/
inductive Reachable : ServerState → Prop
  | init : Reachable initialState
  | step {s s' : ServerState} : Reachable s → Step s s' → Reachable s'

/-! ## Concrete sample data used by witnesses and counterexamples -/

/-- A tick oracle whose remote sends all fail and whose random draws are 0. -/
def constFalseOracle : TickOracle :=
  { haterPick := 0, lastPick := 0, sendOutcome := fun _ => false }

/-- A well-formed `start` payload: one cookie, two messages. -/
def sampleStart : StartData :=
  { cookieContent := "c1", messageContent := "hi\nbye", threadID := "123",
    delay := some 5, hatersName := "A", lastHereName := "Z" }

/-- The state right after `startTask` has registered `sampleStart`'s task. -/
def sampleState : ServerState := startTask 0 sampleStart initialState

/-- The task object `startTask 0 sampleStart` registers. -/
def sampleTask : Task :=
  { taskId := 0
    config := { delay := 5, running := true, cookies := ["c1"] }
    messageData :=
      { threadID := "123", messages := ["hi", "bye"], hatersName := ["A"],
        lastName := ["Z"], currentIndex := 0, loopCount := 0 }
    rawManager := mkRawSessionManager 0 1
    intervalId := none }

/-- `sampleTask` after its sequencer has delivered both messages, so that
`currentIndex` equals the message-list length. -/
def sampleTask2 : Task :=
  { sampleTask with
    messageData := { sampleTask.messageData with currentIndex := 2, loopCount := 0 } }

/-- A running state holding `sampleTask2` with its interval handle 5. -/
def sampleState2 : ServerState :=
  { tasks := [(0, sampleTask2)], monitorData := { activeTasks := 1, totalSent := 2 },
    timers := [5], nextTimer := 6 }

/-- `sampleTask2` after a wrap tick whose delivery failed: the index was
reset and the loop counter incremented even though nothing was delivered. -/
def sampleTask2After : Task :=
  { sampleTask2 with
    messageData :=
      { sampleTask2.messageData with currentIndex := 0, loopCount := 1 } }

/-- `start` payload with four credentials (spec §8 Scenario A). -/
def c2Start : StartData :=
  { cookieContent := "c1\nc2\nc3\nc4", messageContent := "hi", threadID := "123",
    delay := some 5, hatersName := "A", lastHereName := "Z" }

/-- Scenario A bootstrap outcomes: three logins fail, the fourth succeeds. -/
def c2Outcomes : List CredOutcome :=
  [CredOutcome.loginFail, CredOutcome.loginFail, CredOutcome.loginFail, CredOutcome.ok]

/-- Scenario A after the threshold-breach `stopTask` fired during bootstrap. -/
def c2Stopped : ServerState := stopTask 0 (startTask 0 c2Start initialState)

/-- Scenario A after the bootstrap continuation then ran with `ok = true`. -/
def c2After : ServerState := bootstrapComplete 0 true c2Stopped

/-- A `start` payload whose message list is empty after trimming and
dropping blank entries, but whose thread id is valid. -/
def c3Start : StartData :=
  { cookieContent := "c1", messageContent := "\n \n", threadID := "123",
    delay := some 5, hatersName := "A", lastHereName := "Z" }

/-- The state `startTask` produces from `c3Start`. -/
def c3State : ServerState := startTask 7 c3Start initialState

/-- The task that `startTask 7 c3Start` registers: its message list is empty. -/
def c3Task : Task :=
  { taskId := 7
    config := { delay := 5, running := true, cookies := ["c1"] }
    messageData :=
      { threadID := "123", messages := [], hatersName := ["A"], lastName := ["Z"],
        currentIndex := 0, loopCount := 0 }
    rawManager := mkRawSessionManager 7 1
    intervalId := none }

/-! ## Helper lemmas about the registry map operations -/

theorem mapContains_of_get {k : Nat} {m : List (Nat × Task)} {t : Task}
    (h : mapGet k m = some t) : mapContains k m = true := by
  induction m with
  | nil => simp [mapGet] at h
  | cons p rest ih =>
    by_cases hp : p.1 = k
    · simp [mapContains, hp]
    · simp [mapGet, hp] at h
      simp [mapContains, hp, ih h]

theorem length_mapReplace (k : Nat) (v : Task) (m : List (Nat × Task)) :
    (mapReplace k v m).length = m.length := by
  induction m with
  | nil => rfl
  | cons p rest ih =>
    by_cases hp : p.1 = k <;> simp [mapReplace, hp, ih]

theorem length_mapSet_of_get {k : Nat} {v : Task} {m : List (Nat × Task)} {t : Task}
    (h : mapGet k m = some t) : (mapSet k v m).length = m.length := by
  simp [mapSet, mapContains_of_get h, length_mapReplace]

theorem mapGet_mapReplace_of_get {k : Nat} {v : Task} {m : List (Nat × Task)} {t : Task}
    (h : mapGet k m = some t) : mapGet k (mapReplace k v m) = some v := by
  induction m with
  | nil => simp [mapGet] at h
  | cons p rest ih =>
    by_cases hp : p.1 = k
    · simp [mapReplace, hp, mapGet]
    · simp [mapGet, hp] at h
      simp [mapReplace, hp, mapGet, ih h]

theorem mapGet_mapSet_of_get {k : Nat} {v : Task} {m : List (Nat × Task)} {t : Task}
    (h : mapGet k m = some t) : mapGet k (mapSet k v m) = some v := by
  simp [mapSet, mapContains_of_get h, mapGet_mapReplace_of_get h]

/-! ## Helper lemmas about the dispatch fallback loop -/

theorem sendMessageGo_eq (outcome : Nat → Bool) (l : List Nat) :
    sendMessageGo outcome l =
      (l.any outcome,
       l.takeWhile (fun a => !outcome a) ++ (l.dropWhile (fun a => !outcome a)).take 1) := by
  induction l with
  | nil => simp [sendMessageGo]
  | cons a rest ih =>
    cases ha : outcome a with
    | true => simp [sendMessageGo, ha, List.takeWhile_cons, List.dropWhile_cons]
    | false => simp [sendMessageGo, ha, ih, List.takeWhile_cons, List.dropWhile_cons]

/-! ## Helper lemmas about the bootstrap fold -/

theorem createRawSession_threshold (m : RawSessionManager) (o : CredOutcome) (i : Nat) :
    (createRawSession m o i).unhealthyThreshold = m.unhealthyThreshold := by
  cases o with
  | loginFail => simp only [createRawSession, checkStopCondition]; split <;> rfl
  | noAccess => simp only [createRawSession, checkStopCondition]; split <;> rfl
  | ok => rfl

theorem createRawSessionsGo_threshold (outs : List CredOutcome) :
    ∀ (m : RawSessionManager) (i : Nat),
      (createRawSessionsGo m i outs).unhealthyThreshold = m.unhealthyThreshold := by
  induction outs with
  | nil => intro m i; rfl
  | cons o rest ih =>
    intro m i
    rw [show createRawSessionsGo m i (o :: rest)
          = createRawSessionsGo (createRawSession m o i) (i + 1) rest from rfl,
        ih, createRawSession_threshold]

theorem createRawSessionsGo_count (outs : List CredOutcome) :
    ∀ (m : RawSessionManager) (i : Nat),
      (createRawSessionsGo m i outs).unhealthyCount = m.unhealthyCount + credFailures outs := by
  induction outs with
  | nil => intro m i; simp [createRawSessionsGo, credFailures]
  | cons o rest ih =>
    intro m i
    rw [show createRawSessionsGo m i (o :: rest)
          = createRawSessionsGo (createRawSession m o i) (i + 1) rest from rfl,
        ih]
    cases o with
    | ok => simp [createRawSession, credFailures]
    | loginFail =>
      simp only [createRawSession, checkStopCondition, credFailures]
      split
      · simp; omega
      · simp; omega
    | noAccess =>
      simp only [createRawSession, checkStopCondition, credFailures]
      split
      · simp; omega
      · simp; omega

theorem createRawSessionsGo_signals (outs : List CredOutcome) :
    ∀ (m : RawSessionManager) (i : Nat),
      (createRawSessionsGo m i outs).breachSignals =
        m.breachSignals +
          (m.unhealthyCount + credFailures outs + 1 -
            max (m.unhealthyCount + 1) m.unhealthyThreshold) := by
  induction outs with
  | nil => intro m i; simp only [createRawSessionsGo, credFailures]; omega
  | cons o rest ih =>
    intro m i
    rw [show createRawSessionsGo m i (o :: rest)
          = createRawSessionsGo (createRawSession m o i) (i + 1) rest from rfl,
        ih]
    cases o with
    | ok => simp [createRawSession, credFailures]
    | loginFail =>
      simp only [createRawSession, checkStopCondition, credFailures]
      split
      · simp
        omega
      · simp
        omega
    | noAccess =>
      simp only [createRawSession, checkStopCondition, credFailures]
      split
      · simp
        omega
      · simp
        omega

/-! ## The characterization of one full tick -/

theorem runTaskLoop_some (o : TickOracle) (taskId : Nat) (s : ServerState) (task : Task)
    (h1 : mapGet taskId s.tasks = some task) (h2 : task.config.running = true) :
    runTaskLoop o taskId s =
      ({ s with
          tasks :=
            mapSet taskId
              { task with messageData :=
                  if (sendMessage o.sendOutcome task.rawManager).1 then
                    { wrapIfNeeded task.messageData with
                        currentIndex := (wrapIfNeeded task.messageData).currentIndex + 1 }
                  else wrapIfNeeded task.messageData }
              s.tasks
          monitorData :=
            if (sendMessage o.sendOutcome task.rawManager).1 then
              { s.monitorData with totalSent := s.monitorData.totalSent + 1 }
            else s.monitorData },
       some (composeMsg (wrapIfNeeded task.messageData) o,
             (sendMessage o.sendOutcome task.rawManager).1)) := by
  simp [runTaskLoop, h1, h2]

/-! ## Preservation of the `activeTasks` bookkeeping by every event -/

theorem stopTask_inv (taskId : Nat) (s : ServerState)
    (h : s.monitorData.activeTasks = s.tasks.length) :
    (stopTask taskId s).monitorData.activeTasks = (stopTask taskId s).tasks.length := by
  cases hm : mapGet taskId s.tasks with
  | none => simpa [stopTask, hm] using h
  | some task => simp [stopTask, hm]

theorem startTask_inv (freshId : Nat) (d : StartData) (s : ServerState)
    (h : s.monitorData.activeTasks = s.tasks.length) :
    (startTask freshId d s).monitorData.activeTasks = (startTask freshId d s).tasks.length := by
  by_cases hv : validThreadID (jsTrim d.threadID) = true
  · simp [startTask, hv]
  · simp only [startTask]
    rw [if_neg (by simpa using hv)]
    exact h

theorem bootstrapComplete_inv (taskId : Nat) (ok : Bool) (s : ServerState)
    (h : s.monitorData.activeTasks = s.tasks.length) :
    (bootstrapComplete taskId ok s).monitorData.activeTasks
      = (bootstrapComplete taskId ok s).tasks.length := by
  cases ok with
  | false => simpa [bootstrapComplete] using stopTask_inv taskId s h
  | true =>
    cases hm : mapGet taskId s.tasks with
    | none => simpa [bootstrapComplete, hm] using h
    | some task =>
      simp [bootstrapComplete, hm, length_mapSet_of_get hm]
      exact h

theorem runTaskLoop_inv (o : TickOracle) (taskId : Nat) (s : ServerState)
    (h : s.monitorData.activeTasks = s.tasks.length) :
    (runTaskLoop o taskId s).1.monitorData.activeTasks
      = (runTaskLoop o taskId s).1.tasks.length := by
  cases hm : mapGet taskId s.tasks with
  | none => simpa [runTaskLoop, hm] using h
  | some task =>
    cases hr : task.config.running with
    | false => simpa [runTaskLoop, hm, hr] using h
    | true =>
      rw [runTaskLoop_some o taskId s task hm hr]
      cases (sendMessage o.sendOutcome task.rawManager).1 with
      | false => simpa [length_mapSet_of_get hm] using h
      | true => simpa [length_mapSet_of_get hm] using h

end PinkyServer

namespace PinkyServer

/-- C6: for every credential list of length `N`, the session pool's unhealthy
threshold equals `max(1, floor(0.75 * N))` (the spec-side floor stated over ℚ,
the code side being `Math.max(1, Math.floor(totalSessions * 0.75))`). -/
theorem C6_unhealthyThreshold (tid N : Nat) :
    (mkRawSessionManager tid N).unhealthyThreshold
      = max 1 (Nat.floor ((0.75 : ℚ) * N)) := by
  have h75 : (0.75 : ℚ) = 3 / 4 := by norm_num
  have h : (0.75 : ℚ) * N = ((N * 3 : ℕ) : ℚ) / ((4 : ℕ) : ℚ) := by
    rw [h75]; push_cast; ring
  rw [h, Nat.floor_div_nat, Nat.floor_natCast]
  rfl

/-- C1 (amended): during session-pool bootstrap the breach is signalled — the
"Too many unhealthy cookies" log plus a scheduled asynchronous `stopTask` —
not exactly once but at every failure at or above the threshold: with `f`
failing credentials and threshold `t`, the signal fires `f + 1 - t` times
(truncated subtraction, so never when `f < t`), the first at the moment
`unhealthyCount` first reaches `t`; `unhealthyCount` itself ends at `f`.
Only the effective teardown happens at most once, because `stopTask` on an
already-removed task is a no-op. -/
theorem C1_breach_signals (tid : Nat) (outs : List CredOutcome) :
    (createRawSessions (mkRawSessionManager tid outs.length) outs).breachSignals
      = credFailures outs + 1 - (mkRawSessionManager tid outs.length).unhealthyThreshold ∧
    (createRawSessions (mkRawSessionManager tid outs.length) outs).unhealthyCount
      = credFailures outs := by
  constructor
  · have h := createRawSessionsGo_signals outs (mkRawSessionManager tid outs.length) 0
    rw [createRawSessions, h]
    simp only [mkRawSessionManager]
    omega
  · have h := createRawSessionsGo_count outs (mkRawSessionManager tid outs.length) 0
    rw [createRawSessions, h]
    simp [mkRawSessionManager]

/-- C1 counterexample: with two credentials that both fail login the threshold
is `max(1, floor(1.5)) = 1`, and `checkStopCondition` signals the breach at
both failures — twice, not exactly once as the claim states. -/
theorem C1_counterexample :
    (createRawSessions (mkRawSessionManager 0 2)
        [CredOutcome.loginFail, CredOutcome.loginFail]).breachSignals = 2 ∧
    (createRawSessions (mkRawSessionManager 0 2)
        [CredOutcome.loginFail, CredOutcome.loginFail]).breachSignals ≠ 1 := by
  decide

/-- C7: `sendMessage` returns delivered = true iff some healthy handle's send
succeeds, and the handles actually tried are exactly the failing ones before
the first success plus that first success, in pool order; in particular an
empty healthy-handle list yields `false` immediately with no attempts. -/
theorem C7_sendMessage (outcome : Nat → Bool) (m : RawSessionManager) :
    (sendMessage outcome m).1 = (getHealthySessions m).any outcome ∧
    (sendMessage outcome m).2 =
      (getHealthySessions m).takeWhile (fun a => !outcome a)
        ++ ((getHealthySessions m).dropWhile (fun a => !outcome a)).take 1 := by
  have h := sendMessageGo_eq outcome (getHealthySessions m)
  rw [sendMessage, h]
  exact ⟨rfl, rfl⟩

/-- C9: calling stop with a task id not present in the registry performs no
state mutation (the state is returned unchanged, with no error path), and
stop is idempotent. -/
theorem C9_stop_absent (s : ServerState) (taskId : Nat)
    (h : mapGet taskId s.tasks = none) :
    stopTask taskId s = s ∧ stopTask taskId (stopTask taskId s) = stopTask taskId s := by
  have h1 : stopTask taskId s = s := by simp [stopTask, h]
  rw [h1]
  exact ⟨rfl, h1⟩

/-- Witness for C9 at the initial state and task id 5. -/
theorem C9_stop_absent_witness :
    stopTask 5 initialState = initialState ∧
    stopTask 5 (stopTask 5 initialState) = stopTask 5 initialState :=
  C9_stop_absent initialState 5 rfl

/-- C10: a tick whose task id is absent from the registry, or whose task has
its running flag cleared, is a no-op: the server state is unchanged and no
message is composed or sent. -/
theorem C10_tick_noop (o : TickOracle) (taskId : Nat) (s : ServerState)
    (h : mapGet taskId s.tasks = none ∨
         ∃ task, mapGet taskId s.tasks = some task ∧ task.config.running = false) :
    runTaskLoop o taskId s = (s, none) := by
  rcases h with h | ⟨task, h, hr⟩
  · simp [runTaskLoop, h]
  · simp [runTaskLoop, h, hr]

/-- Witness for C10 at the initial state and task id 9. -/
theorem C10_tick_noop_witness :
    runTaskLoop constFalseOracle 9 initialState = (initialState, none) :=
  C10_tick_noop constFalseOracle 9 initialState (Or.inl rfl)

/-- C8: in every server state reachable from process start by processing
events (start, stop, bootstrap completion, timer tick), the `activeTasks`
value a `monitor` request reports equals the number of tasks currently in
the registry map. -/
theorem C8_activeTasks_sync (uptime : Nat) (s : ServerState) (h : Reachable s) :
    (monitorReply uptime s).activeTasks = s.tasks.length := by
  have key : s.monitorData.activeTasks = s.tasks.length := by
    induction h with
    | init => rfl
    | step hr hst ih =>
      cases hst with
      | start freshId d => exact startTask_inv freshId d _ ih
      | stop taskId => exact stopTask_inv taskId _ ih
      | bootstrapDone taskId ok => exact bootstrapComplete_inv taskId ok _ ih
      | tick o taskId => exact runTaskLoop_inv o taskId _ ih
  exact key

/-- Witness for C8 at the initial state. -/
theorem C8_activeTasks_sync_witness :
    (monitorReply 0 initialState).activeTasks = initialState.tasks.length :=
  C8_activeTasks_sync 0 initialState Reachable.init

end PinkyServer

namespace PinkyServer

/-- C4 (amended): for every tick of a running task that starts with
`currentIndex < messages.length` (a tick that does not wrap), the sequencer
index advances by one iff `sendMessage` returned delivered = true for that
tick; a false return leaves the whole sequencer state (index and loop
counter) and `monitorData` unchanged, so the same message is retried on the
next tick. -/
theorem C4_advance_iff_delivered (o : TickOracle) (taskId : Nat) (s : ServerState) (task : Task)
    (h1 : mapGet taskId s.tasks = some task) (h2 : task.config.running = true)
    (h3 : task.messageData.currentIndex < task.messageData.messages.length) :
    mapGet taskId (runTaskLoop o taskId s).1.tasks = some { task with messageData :=
        if (sendMessage o.sendOutcome task.rawManager).1 then
          { task.messageData with currentIndex := task.messageData.currentIndex + 1 }
        else task.messageData } ∧
    ((sendMessage o.sendOutcome task.rawManager).1 = false →
        (runTaskLoop o taskId s).1.monitorData = s.monitorData ∧
        (runTaskLoop o taskId s).2 = some (composeMsg task.messageData o, false)) ∧
    ((if (sendMessage o.sendOutcome task.rawManager).1 then
          { task.messageData with currentIndex := task.messageData.currentIndex + 1 }
        else task.messageData).currentIndex = task.messageData.currentIndex + 1
      ↔ (sendMessage o.sendOutcome task.rawManager).1 = true) := by
  have hw : wrapIfNeeded task.messageData = task.messageData := by
    rw [wrapIfNeeded, if_neg]; omega
  rw [runTaskLoop_some o taskId s task h1 h2, hw]
  cases hd : (sendMessage o.sendOutcome task.rawManager).1 with
  | false =>
    simp only [hd, Bool.false_eq_true, if_false]
    refine ⟨mapGet_mapSet_of_get h1, fun _ => ⟨by simp, by simp⟩, ?_⟩
    simp
  | true =>
    simp only [hd, if_true]
    refine ⟨mapGet_mapSet_of_get h1, ?_, ?_⟩
    · intro hc
      simp at hc
    · simp

/-- Witness for C4 at a freshly started sample task whose sends all fail. -/
theorem C4_advance_iff_delivered_witness :
    mapGet 0 (runTaskLoop constFalseOracle 0 sampleState).1.tasks
        = some { sampleTask with messageData :=
        if (sendMessage constFalseOracle.sendOutcome sampleTask.rawManager).1 then
          { sampleTask.messageData with
              currentIndex := sampleTask.messageData.currentIndex + 1 }
        else sampleTask.messageData } ∧
    ((sendMessage constFalseOracle.sendOutcome sampleTask.rawManager).1 = false →
        (runTaskLoop constFalseOracle 0 sampleState).1.monitorData
            = sampleState.monitorData ∧
        (runTaskLoop constFalseOracle 0 sampleState).2
            = some (composeMsg sampleTask.messageData constFalseOracle, false)) ∧
    ((if (sendMessage constFalseOracle.sendOutcome sampleTask.rawManager).1 then
          { sampleTask.messageData with
              currentIndex := sampleTask.messageData.currentIndex + 1 }
        else sampleTask.messageData).currentIndex
          = sampleTask.messageData.currentIndex + 1
      ↔ (sendMessage constFalseOracle.sendOutcome sampleTask.rawManager).1 = true) :=
  C4_advance_iff_delivered constFalseOracle 0 sampleState sampleTask (by decide) rfl
    (by decide)

/-- C4 counterexample: on a tick that starts with `currentIndex =
messages.length` (reachable right after the last message was delivered), a
failed delivery still resets the index from 2 to 0 and increments the loop
counter from 0 to 1, contradicting "when it returns false, both the current
index and the loop counter are unchanged". -/
theorem C4_counterexample :
    (sendMessage constFalseOracle.sendOutcome sampleTask2.rawManager).1 = false ∧
    mapGet 0 (runTaskLoop constFalseOracle 0 sampleState2).1.tasks = some sampleTask2After ∧
    sampleTask2After.messageData.loopCount ≠ sampleTask2.messageData.loopCount ∧
    sampleTask2After.messageData.currentIndex ≠ sampleTask2.messageData.currentIndex := by
  decide

/-- C5: whenever `currentIndex` equals the message-list length at the start
of composing, the wrap step increments the loop counter by exactly one and
resets the index to 0 before composition, and the composed message of that
tick uses the first list element (`messages.getD 0`). -/
theorem C5_wrap_before_compose (o : TickOracle) (taskId : Nat) (s : ServerState) (task : Task)
    (h1 : mapGet taskId s.tasks = some task) (h2 : task.config.running = true)
    (h3 : task.messageData.currentIndex = task.messageData.messages.length) :
    wrapIfNeeded task.messageData =
      { task.messageData with
          currentIndex := 0
          loopCount := task.messageData.loopCount + 1 } ∧
    (runTaskLoop o taskId s).2 = some
      (randomFrom task.messageData.hatersName o.haterPick ++ " "
         ++ task.messageData.messages.getD 0 "undefined" ++ " "
         ++ randomFrom task.messageData.lastName o.lastPick,
       (sendMessage o.sendOutcome task.rawManager).1) ∧
    mapGet taskId (runTaskLoop o taskId s).1.tasks = some { task with messageData :=
        if (sendMessage o.sendOutcome task.rawManager).1 then
          { task.messageData with
              currentIndex := 1
              loopCount := task.messageData.loopCount + 1 }
        else
          { task.messageData with
              currentIndex := 0
              loopCount := task.messageData.loopCount + 1 } } := by
  have hw : wrapIfNeeded task.messageData =
      { task.messageData with
          currentIndex := 0
          loopCount := task.messageData.loopCount + 1 } := by
    rw [wrapIfNeeded, if_pos]; omega
  refine ⟨hw, ?_, ?_⟩
  · rw [runTaskLoop_some o taskId s task h1 h2, hw]
    simp [composeMsg]
  · rw [runTaskLoop_some o taskId s task h1 h2, hw]
    cases hd : (sendMessage o.sendOutcome task.rawManager).1 with
    | false =>
      simp only [hd, Bool.false_eq_true, if_false]
      exact mapGet_mapSet_of_get h1
    | true =>
      simp only [hd, if_true]
      simpa using mapGet_mapSet_of_get h1

/-- Witness for C5 at a sample task whose index sits at the list length. -/
theorem C5_wrap_before_compose_witness :
    wrapIfNeeded sampleTask2.messageData =
      { sampleTask2.messageData with
          currentIndex := 0
          loopCount := sampleTask2.messageData.loopCount + 1 } ∧
    (runTaskLoop constFalseOracle 0 sampleState2).2 = some
      (randomFrom sampleTask2.messageData.hatersName constFalseOracle.haterPick ++ " "
         ++ sampleTask2.messageData.messages.getD 0 "undefined" ++ " "
         ++ randomFrom sampleTask2.messageData.lastName constFalseOracle.lastPick,
       (sendMessage constFalseOracle.sendOutcome sampleTask2.rawManager).1) ∧
    mapGet 0 (runTaskLoop constFalseOracle 0 sampleState2).1.tasks
        = some { sampleTask2 with messageData :=
        if (sendMessage constFalseOracle.sendOutcome sampleTask2.rawManager).1 then
          { sampleTask2.messageData with
              currentIndex := 1
              loopCount := sampleTask2.messageData.loopCount + 1 }
        else
          { sampleTask2.messageData with
              currentIndex := 0
              loopCount := sampleTask2.messageData.loopCount + 1 } } :=
  C5_wrap_before_compose constFalseOracle 0 sampleState2 sampleTask2 (by decide) rfl
    (by decide)

/-- C2 (code bug, spec §8 Scenario A): with four credentials of which three
fail, threshold 3 is breached, so a `stopTask` is scheduled and removes the
task during bootstrap; bootstrap still resolves with one healthy session, so
the `then`-continuation creates the recurring interval anyway — after the
stop a live timer handle exists while the task is no longer registered, and
no registry entry owns the handle, so it can never be cleared. -/
theorem C2_orphan_interval :
    (createRawSessions (mkRawSessionManager 0 4) c2Outcomes).breachSignals = 1 ∧
    getHealthySessions (createRawSessions (mkRawSessionManager 0 4) c2Outcomes) = [3] ∧
    mapGet 0 c2Stopped.tasks = none ∧
    c2After.timers = [0] ∧
    mapGet 0 c2After.tasks = none := by
  decide

/-- C3 (code bug): a start request with a valid thread id whose message list
is empty after trimming and dropping blank entries is not rejected — the
only validation is the thread-id regex.  The task is created and registered,
and a tick then invokes the sequencer on the empty list, composing the
string "A undefined Z". -/
theorem C3_empty_messages_task_created :
    c3State.tasks.length = 1 ∧
    mapGet 7 c3State.tasks = some c3Task ∧
    c3Task.messageData.messages = [] ∧
    (runTaskLoop constFalseOracle 7 c3State).2 = some ("A undefined Z", false) := by
  decide

end PinkyServer
